import Mathlib

/-!
Verification of the command router in src/handler.rs of the
PoiScript/MisakaMikoto chat bot.

The handler composes asynchronous collaborator calls (telegram Bot
transport, kitsu Api, user Database) into pipelines built with
futures-0.1 and_then chains.  We embed each pipeline as a value of a
small effect language: Program is a finite chain of collaborator
effects; run executes it against an environment that supplies each
collaborator's outcome, recording the ordered trace of attempted
effects and the final result.  A chain aborts at the first collaborator
failure, exactly as and_then chains do.

The parsing utilities (parse_message, parse_query, parse_anime_list,
parse_anime_detail in src/utils.rs) and the type definitions of
src/types.rs, src/error.rs, src/database.rs are not part of the given
source tree; they are modelled from the specification where needed and
each such definition is marked "Modelled from the spec".
-/

/-- Telegram markup mode (types::telegram::ParseMode; definition file
absent).  Modelled from the spec: only the rich (HTML) mode is ever
passed by the handler. -/
inductive ParseMode
  | HTML
  deriving DecidableEq

/-- Inline keyboard button (types::telegram::InlineKeyboardButton;
definition file absent).  Modelled from the spec: a label plus an
optional callback payload; the handler only builds buttons through
with_callback_data. -/
structure InlineKeyboardButton where
  text : String
  callback_data : Option String
  deriving DecidableEq

/-- Constructor used by Handler::progress to build its two buttons. -/
def InlineKeyboardButton.with_callback_data (text data : String) :
    InlineKeyboardButton :=
  { text := text, callback_data := some data }

/-- Rows of buttons, outer list is the row sequence. -/
abbrev Keyboard := List (List InlineKeyboardButton)

/-- Telegram chat (only its id is read by the handler). -/
structure Chat where
  id : Int
  deriving DecidableEq

/-- Telegram user (only its id is read by the handler). -/
structure User where
  id : Int
  deriving DecidableEq

/-- Telegram message (types::telegram::Message; definition file
absent).  The handler reads message_id, chat, from and text, each
optional in the wire format.  The Rust field named from is a Lean
keyword, hence from_. -/
structure Message where
  message_id : Option Int
  chat : Option Chat
  from_ : Option User
  text : Option String
  deriving DecidableEq

/-- Telegram callback query (types::telegram::CallbackQuery; definition
file absent).  The handler reads id, from (always present), the
optional originating message and the optional payload data. -/
structure CallbackQuery where
  id : String
  from_ : User
  message : Option Message
  data : Option String
  deriving DecidableEq

/-- Error values (src/error.rs absent).  Modelled from the spec:
telegram carries the description given to TelegramError::new (the
handler constructs TelegramError::new with the text "Outdated
Message."); collaborator failures are opaque error values. -/
inductive Error
  | telegram (description : String)
  | collaborator (description : String)
  deriving DecidableEq

/-- Text commands (types::MsgCommand; definition file absent, variants
read off the match in handle_message). -/
inductive MsgCommand
  | List
  | Update
  | Version
  deriving DecidableEq

/-- Callback commands (types::QueryCommand; definition file absent;
variants and field names read off the match in handle_query: Offset
carries kitsu_id and offset, Detail carries kitsu_id and a numeric
anime_id, Progress carries kitsu_id, string anime_id and entry_id, and
a numeric progress). -/
inductive QueryCommand
  | Offset (kitsu_id offset : Int)
  | Detail (kitsu_id anime_id : Int)
  | Progress (kitsu_id : Int) (anime_id entry_id : String) (progress : Int)
  deriving DecidableEq

/-- Decimal digit character, as Rust's integer Display produces. -/
def digitChar : Nat → Char
  | 0 => '0'
  | 1 => '1'
  | 2 => '2'
  | 3 => '3'
  | 4 => '4'
  | 5 => '5'
  | 6 => '6'
  | 7 => '7'
  | 8 => '8'
  | 9 => '9'
  | _ => '*'

/-- Digits of a natural number in base ten, most significant first. -/
def natDigits (n : Nat) : List Char :=
  if h : n < 10 then [digitChar n]
  else natDigits (n / 10) ++ [digitChar (n % 10)]
decreasing_by exact Nat.div_lt_self (by omega) (by omega)

/-- Decimal representation of a natural number, exactly as Rust's
Display trait formats an unsigned value in a format! call. -/
def natRepr (n : Nat) : String :=
  String.mk (natDigits n)

/-- Decimal representation of a signed integer, exactly as Rust's
Display trait formats an i64 in a format! call. -/
def intRepr (i : Int) : String :=
  if i < 0 then "-" ++ natRepr i.natAbs else natRepr i.toNat

/-- Numeric value of a decimal digit character; none for a non-digit. -/
def digitVal (c : Char) : Option Nat :=
  if '0' ≤ c ∧ c ≤ '9' then some (c.toNat - 48) else none

/-- Accumulating decimal reader over a character list; fails on the
first non-digit. -/
def parseDigitsAux : List Char → Nat → Option Nat
  | [], acc => some acc
  | c :: cs, acc =>
    match digitVal c with
    | some d => parseDigitsAux cs (acc * 10 + d)
    | none => none

/-- Strict decimal parser for one payload segment: nonempty and all
digits, else failure.  Modelled from the spec: numeric payload fields
are decimal integers and a non-numeric value in a numeric slot is a
parse failure. -/
def parseDecimalSeg : List Char → Option Nat
  | [] => none
  | c :: cs => parseDigitsAux (c :: cs) 0

/-- Splitting a character list at every '/' (the payload delimiter);
delimiters at the ends and adjacent delimiters produce empty segments,
so a well-formed payload "/a/b/" yields an empty first and last
segment. -/
def splitSlash : List Char → List (List Char)
  | [] => [[]]
  | c :: cs =>
    if c = '/' then [] :: splitSlash cs
    else
      match splitSlash cs with
      | [] => [[c]]
      | s :: rest => (c :: s) :: rest

/-- Modelled from the spec: utils::parse_query (src/utils.rs is absent
from the source tree).  Authoritative wire grammar of spec section 6:
"/" subject_id "/" "offset" "/" offset "/",
"/" subject_id "/" "detail" "/" entry_id "/",
"/" subject_id "/" "progress" "/" entry_id "/" entry_instance_id "/"
progress "/".  Decoding is strict: wrong segment count, a non-numeric
value in a numeric slot, or an unrecognized discriminator all fail. -/
def parse_query (s : String) : Option QueryCommand :=
  match splitSlash s.data with
  | [[], ks, ds, third, []] =>
    if ds = "offset".data then
      match parseDecimalSeg ks, parseDecimalSeg third with
      | some k, some o => some (QueryCommand.Offset (Int.ofNat k) (Int.ofNat o))
      | _, _ => none
    else if ds = "detail".data then
      match parseDecimalSeg ks, parseDecimalSeg third with
      | some k, some a => some (QueryCommand.Detail (Int.ofNat k) (Int.ofNat a))
      | _, _ => none
    else none
  | [[], ks, ds, third, fourth, fifth, []] =>
    if ds = "progress".data then
      match parseDecimalSeg ks, parseDecimalSeg fifth with
      | some k, some p =>
        some (QueryCommand.Progress (Int.ofNat k) (String.mk third)
          (String.mk fourth) (Int.ofNat p))
      | _, _ => none
    else none
  | _ => none

/-- Modelled from the spec: the encoder side of the payload codec
(spec section 4.2).  The two instances of it that do appear in
src/handler.rs, the "back to anime" and "back to list" buttons built by
Handler::progress, are format! calls of exactly these shapes. -/
def encode : QueryCommand → String
  | QueryCommand.Offset k o => "/" ++ intRepr k ++ "/offset/" ++ intRepr o ++ "/"
  | QueryCommand.Detail k a => "/" ++ intRepr k ++ "/detail/" ++ intRepr a ++ "/"
  | QueryCommand.Progress k a e p =>
      "/" ++ intRepr k ++ "/progress/" ++ a ++ "/" ++ e ++ "/" ++ intRepr p ++ "/"

/-- Modelled from the spec: utils::parse_message (src/utils.rs absent).
Exact-match, case-sensitive literal tokens for list, update and
version; anything else, including empty text, fails to parse. -/
def parse_message (s : String) : Option MsgCommand :=
  if s = "list" then some MsgCommand.List
  else if s = "update" then some MsgCommand.Update
  else if s = "version" then some MsgCommand.Version
  else none

/-- User database handle (src/database.rs absent).  Modelled from the
spec: get_kitsu_id is the synchronous token-store lookup of the
sender's remote-subject id, get_token the synchronous lookup of the
sender's auth token; the asynchronous bulk refresh is an effect. -/
structure Database where
  get_kitsu_id : Int → Option Int
  get_token : Int → Int → Option String

/-- Opaque remote-service list record (src/types.rs absent).  Modelled
from the spec: entries are not reinterpreted by the router. -/
abbrev Entry := String

/-- Opaque remote-service subject record (src/types.rs absent). -/
abbrev Anime := String

/-- Record of one known user as returned by the bulk refresh; only the
count of them is used by the handler. -/
abbrev KitsuUser := Int

/-- Modelled from the spec: utils::parse_anime_list (src/utils.rs
absent) formats a fetched page into response text plus an inline
keyboard whose buttons encode Offset payloads for navigation.  Its
exact output never matters below; what matters is that Handler.list and
Handler.offset feed their fetch results through this same function. -/
def parse_anime_list (kitsu_id : Int) (prev next : Option Int)
    (entries : List Entry) (animes : List Anime) : String × Keyboard :=
  (String.intercalate "\n" (entries ++ animes),
    [(match prev with
      | some p =>
        [InlineKeyboardButton.with_callback_data "prev"
          (encode (QueryCommand.Offset kitsu_id p))]
      | none => []) ++
     (match next with
      | some n =>
        [InlineKeyboardButton.with_callback_data "next"
          (encode (QueryCommand.Offset kitsu_id n))]
      | none => [])])

/-- Modelled from the spec: utils::parse_anime_detail (src/utils.rs
absent) formats one entry's detail with navigation buttons. -/
def parse_anime_detail (kitsu_id : Int) (pair : Entry × Anime) :
    String × Keyboard :=
  (pair.1 ++ "\n" ++ pair.2,
    [[InlineKeyboardButton.with_callback_data "back to list"
        (encode (QueryCommand.Offset kitsu_id 0))]])

/-- Crate version (the env! CARGO_PKG_VERSION constant; Cargo.toml is
absent).  The concrete value is irrelevant to every claim. -/
def VERSION : String := "0.1.0"

/-- Collaborator calls made by the handler: the kitsu Api (fetch_anime,
get_anime, update_anime_entry), the Database bulk fetch, and the
telegram Bot (send_message, edit_inline_keyboard, answer_query).  Each
pipeline step the handler chains with and_then performs one of
these. -/
inductive Eff
  | fetchAnime (kitsu_id offset : Int)
  | getAnime (kitsu_id anime_id : Int)
  | updateAnimeEntry (token entry_id : String) (progress : Int) (anime_id : String)
  | dbFetch
  | sendMessage (chat_id : Int) (text : String) (mode : Option ParseMode)
      (keyboard : Option Keyboard)
  | editInlineKeyboard (message_id chat_id : Int) (text : String)
      (mode : Option ParseMode) (keyboard : Option Keyboard)
  | answerQuery (query_id : String) (text : Option String) (show_alert : Option Bool)
  deriving DecidableEq

/-- Result delivered by each collaborator call when it succeeds, from
the collaborator contracts of spec section 6. -/
@[reducible] def Res : Eff → Type
  | Eff.fetchAnime _ _ => Option Int × Option Int × List Entry × List Anime
  | Eff.getAnime _ _ => Entry × Anime
  | Eff.updateAnimeEntry _ _ _ _ => Unit
  | Eff.dbFetch => List KitsuUser
  | Eff.sendMessage _ _ _ _ => Message
  | Eff.editInlineKeyboard _ _ _ _ _ => Message
  | Eff.answerQuery _ _ _ => Unit

/-- Shallow embedding of a futures-0.1 and_then chain: a finite
sequence of collaborator effects ending in a result. -/
inductive Program
  | pure (r : Except Error Unit)
  | bind (e : Eff) (k : Res e → Program)

/-- Collaborator environment: the outcome of every collaborator call. -/
abbrev Env : Type := (e : Eff) → Except Error (Res e)

/-- Running a pipeline against an environment: the ordered list of
effects actually attempted and the final outcome.  The first
collaborator failure aborts the remainder of the chain (the failed call
itself was attempted, so it stays in the trace), exactly as and_then
chains of futures behave. -/
def run (env : Env) : Program → List Eff × Except Error Unit
  | Program.pure r => ([], r)
  | Program.bind e k =>
    match env e with
    | Except.error err => ([e], Except.error err)
    | Except.ok r =>
      let p := run env (k r)
      (e :: p.1, p.2)

/-- Outcome of a dispatcher entry point.  The Rust source calls
Option::unwrap on several fields of the incoming event; panicked
records exactly those panics, value a normally constructed pipeline. -/
inductive RustResult (α : Type)
  | panicked
  | value (a : α)

namespace Handler

/-- Handler::unknown (src/handler.rs lines 91 to 101): send the text
"Unknown command." as a new message, no markup, no keyboard. -/
def unknown (chat_id : Int) : Program :=
  Program.bind (Eff.sendMessage chat_id "Unknown command." none none)
    (fun _ => Program.pure (Except.ok ()))

/-- Handler::version (lines 103 to 121): static informational send. -/
def version (chat_id : Int) : Program :=
  Program.bind
    (Eff.sendMessage chat_id
      ("<pre>Sagiri-" ++ VERSION ++ "\nFor more information, please visit the wiki.</pre>")
      (some ParseMode.HTML) none)
    (fun _ => Program.pure (Except.ok ()))

/-- Handler::list (lines 123 to 155): synchronous token-store lookup,
then either the non-registered notice or fetch page zero, format it,
and send a new message. -/
def list (db : Database) (user_id chat_id : Int) : Program :=
  match db.get_kitsu_id user_id with
  | none =>
    Program.bind
      (Eff.sendMessage chat_id ("Non-registered user: " ++ intRepr user_id) none none)
      (fun _ => Program.pure (Except.ok ()))
  | some kitsu_id =>
    Program.bind (Eff.fetchAnime kitsu_id 0)
      (fun r =>
        Program.bind
          (Eff.sendMessage chat_id (parse_anime_list kitsu_id r.1 r.2.1 r.2.2.1 r.2.2.2).1
            (some ParseMode.HTML) (some (parse_anime_list kitsu_id r.1 r.2.1 r.2.2.1 r.2.2.2).2))
          (fun _ => Program.pure (Except.ok ())))

/-- Handler::update (lines 157 to 176): bulk refresh then report the
count of refreshed users. -/
def update (chat_id : Int) : Program :=
  Program.bind Eff.dbFetch
    (fun users =>
      Program.bind
        (Eff.sendMessage chat_id
          ("<pre>Successful update: " ++ natRepr users.length ++ " user(s)</pre>")
          (some ParseMode.HTML) none)
        (fun _ => Program.pure (Except.ok ())))

/-- The edit effect issued by Handler::offset once the fetch has
delivered r: the fetched page goes through the same parse_anime_list
formatting as Handler::list before the in-place edit. -/
def offsetEdit (msg_id chat_id kitsu_id : Int)
    (r : Option Int × Option Int × List Entry × List Anime) : Eff :=
  Eff.editInlineKeyboard msg_id chat_id
    (parse_anime_list kitsu_id r.1 r.2.1 r.2.2.1 r.2.2.2).1
    (some ParseMode.HTML)
    (some (parse_anime_list kitsu_id r.1 r.2.1 r.2.2.1 r.2.2.2).2)

/-- Handler::offset (lines 178 to 201): fetch the requested page,
format, edit the existing message in place, then acknowledge the
callback with no alert text and no alert flag. -/
def offset (msg_id chat_id kitsu_id off : Int) (query_id : String) : Program :=
  Program.bind (Eff.fetchAnime kitsu_id off)
    (fun r =>
      Program.bind (offsetEdit msg_id chat_id kitsu_id r)
        (fun _ =>
          Program.bind (Eff.answerQuery query_id none none)
            (fun _ => Program.pure (Except.ok ()))))

/-- The edit effect issued by Handler::detail once get_anime has
delivered its pair. -/
def detailEdit (msg_id chat_id kitsu_id : Int) (pair : Entry × Anime) : Eff :=
  Eff.editInlineKeyboard msg_id chat_id (parse_anime_detail kitsu_id pair).1
    (some ParseMode.HTML) (some (parse_anime_detail kitsu_id pair).2)

/-- Handler::detail (lines 203 to 225): fetch one entry's detail,
format, edit in place.  The query_id parameter is accepted but the
pipeline never answers the callback. -/
def detail (msg_id chat_id kitsu_id anime_id : Int) (query_id : String) : Program :=
  Program.bind (Eff.getAnime kitsu_id anime_id)
    (fun pair =>
      Program.bind (detailEdit msg_id chat_id kitsu_id pair)
        (fun _ => Program.pure (Except.ok ())))

/-- The two back-navigation buttons built eagerly by Handler::progress
(lines 241 to 254): format! calls producing a detail payload and an
offset zero payload. -/
def progressButtons (kitsu_id : Int) (anime_id : String) : Keyboard :=
  [[InlineKeyboardButton.with_callback_data "back to anime"
      ("/" ++ intRepr kitsu_id ++ "/detail/" ++ anime_id ++ "/")],
   [InlineKeyboardButton.with_callback_data "back to list"
      ("/" ++ intRepr kitsu_id ++ "/offset/0/")]]

/-- Handler::progress (lines 227 to 278): synchronous token lookup;
without a token, answer the callback with the alert "Non-registered
user" and the alert flag set, and do nothing else; with a token, submit
the progress update, then edit the message to the confirmation text
with the two back-navigation buttons.  The pipeline never answers the
callback in the token case. -/
def progress (db : Database) (msg_id chat_id user_id kitsu_id : Int)
    (anime_id : String) (progress : Int) (entry_id query_id : String) : Program :=
  let token := db.get_token user_id kitsu_id
  let text := "Successful update to episode " ++ intRepr progress
  let buttons := progressButtons kitsu_id anime_id
  match token with
  | none =>
    Program.bind (Eff.answerQuery query_id (some "Non-registered user") (some true))
      (fun _ => Program.pure (Except.ok ()))
  | some tok =>
    Program.bind (Eff.updateAnimeEntry tok entry_id progress anime_id)
      (fun _ =>
        Program.bind
          (Eff.editInlineKeyboard msg_id chat_id text (some ParseMode.HTML) (some buttons))
          (fun _ => Program.pure (Except.ok ())))

/-- Handler::handle_message (lines 29 to 44): chat and sender are
extracted with Option::unwrap, which panics when the field is absent;
text defaults to the empty string; the parsed command routes to its
handler and a parse failure routes to unknown. -/
def handle_message (db : Database) (msg : Message) : RustResult Program :=
  match msg.chat with
  | none => RustResult.panicked
  | some chat =>
    match msg.from_ with
    | none => RustResult.panicked
    | some user =>
      let text := msg.text.getD ""
      RustResult.value
        (match parse_message text with
         | some MsgCommand.List => list db user.id chat.id
         | some MsgCommand.Update => update chat.id
         | some MsgCommand.Version => version chat.id
         | none => unknown chat.id)

/-- Handler::handle_query (lines 46 to 89): the payload defaults to the
empty string; a missing originating message short-circuits with the
TelegramError "Outdated Message." before any parsing; when the message
is present its message_id and chat are extracted with Option::unwrap,
which panics when absent; then the parsed payload routes to its handler
and a parse failure routes to unknown. -/
def handle_query (db : Database) (query : CallbackQuery) : RustResult Program :=
  let query_id := query.id
  let user_id := query.from_.id
  let data := query.data.getD ""
  match query.message with
  | some msg =>
    match msg.message_id with
    | none => RustResult.panicked
    | some msg_id =>
      match msg.chat with
      | none => RustResult.panicked
      | some chat =>
        RustResult.value
          (match parse_query data with
           | some (QueryCommand.Offset kitsu_id off) =>
             offset msg_id chat.id kitsu_id off query_id
           | some (QueryCommand.Detail kitsu_id anime_id) =>
             detail msg_id chat.id kitsu_id anime_id query_id
           | some (QueryCommand.Progress kitsu_id anime_id entry_id prog) =>
             progress db msg_id chat.id user_id kitsu_id anime_id prog entry_id query_id
           | none => unknown chat.id)
  | none =>
    RustResult.value (Program.pure (Except.error (Error.telegram "Outdated Message.")))

end Handler

/-! Decimal printing reads back: helper lemmas for the payload codec. -/

theorem digitVal_digitChar (d : Nat) (h : d < 10) : digitVal (digitChar d) = some d := by
  interval_cases d <;> decide

theorem digitChar_ne_slash (d : Nat) : digitChar d ≠ '/' := by
  unfold digitChar
  split <;> decide

theorem natDigits_ne_nil (n : Nat) : natDigits n ≠ [] := by
  rw [natDigits]
  split <;> simp

theorem slash_not_mem_natDigits (n : Nat) : '/' ∉ natDigits n := by
  induction n using Nat.strong_induction_on with
  | _ n ih =>
    rw [natDigits]
    split
    · simp [eq_comm]
      exact digitChar_ne_slash n
    · next h =>
      simp only [List.mem_append, List.mem_singleton]
      push_neg
      refine ⟨ih (n / 10) (Nat.div_lt_self (by omega) (by omega)), ?_⟩
      intro hc
      exact digitChar_ne_slash (n % 10) hc.symm

theorem parseDigitsAux_append (l1 l2 : List Char) (acc : Nat) :
    parseDigitsAux (l1 ++ l2) acc =
      match parseDigitsAux l1 acc with
      | some m => parseDigitsAux l2 m
      | none => none := by
  induction l1 generalizing acc with
  | nil => rfl
  | cons c cs ih =>
    simp only [List.cons_append, parseDigitsAux]
    cases digitVal c with
    | none => rfl
    | some d => exact ih _

theorem parseDigitsAux_natDigits (n : Nat) :
    ∀ acc, parseDigitsAux (natDigits n) acc =
      some (acc * 10 ^ (natDigits n).length + n) := by
  induction n using Nat.strong_induction_on with
  | _ n ih =>
    intro acc
    rw [natDigits]
    split
    · next h =>
      simp [parseDigitsAux, digitVal_digitChar n h]
    · next h =>
      rw [parseDigitsAux_append]
      rw [ih (n / 10) (Nat.div_lt_self (by omega) (by omega))]
      simp only [parseDigitsAux, digitVal_digitChar (n % 10) (Nat.mod_lt n (by omega)),
        List.length_append, List.length_cons, List.length_nil]
      have hsplit : n / 10 * 10 + n % 10 = n := by omega
      have h1 : (acc * 10 ^ (natDigits (n / 10)).length + n / 10) * 10 + n % 10 =
          acc * (10 ^ (natDigits (n / 10)).length * 10) + (n / 10 * 10 + n % 10) := by
        ring
      rw [h1, hsplit, pow_succ]

theorem parseDecimalSeg_natDigits (n : Nat) : parseDecimalSeg (natDigits n) = some n := by
  have h0 : parseDigitsAux (natDigits n) 0 = some n := by
    rw [parseDigitsAux_natDigits]
    simp
  cases hd : natDigits n with
  | nil => exact absurd hd (natDigits_ne_nil n)
  | cons c cs =>
    calc parseDecimalSeg (c :: cs) = parseDigitsAux (c :: cs) 0 := rfl
    _ = parseDigitsAux (natDigits n) 0 := by rw [hd]
    _ = some n := h0

theorem splitSlash_no_slash (l : List Char) (h : '/' ∉ l) : splitSlash l = [l] := by
  induction l with
  | nil => rfl
  | cons c cs ih =>
    simp only [List.mem_cons] at h
    push_neg at h
    rw [splitSlash, if_neg (fun hc => h.1 hc.symm), ih h.2]

theorem splitSlash_append (l1 l2 : List Char) (h : '/' ∉ l1) :
    splitSlash (l1 ++ '/' :: l2) = l1 :: splitSlash l2 := by
  induction l1 with
  | nil => simp [splitSlash]
  | cons c cs ih =>
    simp only [List.mem_cons] at h
    push_neg at h
    rw [List.cons_append, splitSlash, if_neg (fun hc => h.1 hc.symm), ih h.2]

theorem splitSlash_cons_slash (l : List Char) : splitSlash ('/' :: l) = [] :: splitSlash l := by
  rw [splitSlash, if_pos rfl]

theorem splitSlash_shape5 (s1 s2 s3 : List Char)
    (h1 : '/' ∉ s1) (h2 : '/' ∉ s2) (h3 : '/' ∉ s3) :
    splitSlash ('/' :: (s1 ++ '/' :: (s2 ++ '/' :: (s3 ++ ['/'])))) =
      [[], s1, s2, s3, []] := by
  rw [splitSlash_cons_slash, splitSlash_append _ _ h1, splitSlash_append _ _ h2,
    splitSlash_append _ _ h3]
  rfl

theorem splitSlash_shape7 (s1 s2 s3 s4 s5 : List Char)
    (h1 : '/' ∉ s1) (h2 : '/' ∉ s2) (h3 : '/' ∉ s3) (h4 : '/' ∉ s4) (h5 : '/' ∉ s5) :
    splitSlash
        ('/' :: (s1 ++ '/' :: (s2 ++ '/' :: (s3 ++ '/' :: (s4 ++ '/' :: (s5 ++ ['/'])))))) =
      [[], s1, s2, s3, s4, s5, []] := by
  rw [splitSlash_cons_slash, splitSlash_append _ _ h1, splitSlash_append _ _ h2,
    splitSlash_append _ _ h3, splitSlash_append _ _ h4, splitSlash_append _ _ h5]
  rfl

theorem intRepr_ofNat (k : Nat) : intRepr (Int.ofNat k) = natRepr k := by
  unfold intRepr
  split
  · next hlt => exact absurd hlt (Int.not_lt.mpr (Int.ofNat_nonneg k))
  · rfl

theorem String_mk_data (s : String) : String.mk s.data = s := by
  cases s
  rfl

theorem natRepr_data (n : Nat) : (natRepr n).data = natDigits n := rfl

/-- Valid commands in the sense of the spec's data-model invariant:
numeric fields are non-negative, and the opaque string identifiers
contain no delimiter character. -/
def ValidCommand : QueryCommand → Prop
  | QueryCommand.Offset k o => 0 ≤ k ∧ 0 ≤ o
  | QueryCommand.Detail k a => 0 ≤ k ∧ 0 ≤ a
  | QueryCommand.Progress k a e p =>
      0 ≤ k ∧ 0 ≤ p ∧ '/' ∉ a.data ∧ '/' ∉ e.data

theorem intRepr_natCast (k : Nat) : intRepr (k : Int) = natRepr k := intRepr_ofNat k

theorem encode_offset_data (k o : Nat) :
    (encode (QueryCommand.Offset (Int.ofNat k) (Int.ofNat o))).data =
      '/' :: (natDigits k ++ '/' :: ("offset".data ++ '/' :: (natDigits o ++ ['/']))) := by
  have d1 : ("/" : String).data = ['/'] := rfl
  have d2 : ("/offset/" : String).data = '/' :: ("offset".data ++ ['/']) := rfl
  simp [encode, intRepr_ofNat, intRepr_natCast, String.data_append, natRepr_data, d1, d2,
    List.append_assoc]

theorem parse_query_encode_offsetNat (k o : Nat) :
    parse_query (encode (QueryCommand.Offset (Int.ofNat k) (Int.ofNat o))) =
      some (QueryCommand.Offset (Int.ofNat k) (Int.ofNat o)) := by
  unfold parse_query
  rw [encode_offset_data,
    splitSlash_shape5 _ _ _ (slash_not_mem_natDigits k) (by decide)
      (slash_not_mem_natDigits o)]
  simp [parseDecimalSeg_natDigits]

theorem encode_detail_data (k a : Nat) :
    (encode (QueryCommand.Detail (Int.ofNat k) (Int.ofNat a))).data =
      '/' :: (natDigits k ++ '/' :: ("detail".data ++ '/' :: (natDigits a ++ ['/']))) := by
  have d1 : ("/" : String).data = ['/'] := rfl
  have d2 : ("/detail/" : String).data = '/' :: ("detail".data ++ ['/']) := rfl
  simp [encode, intRepr_ofNat, intRepr_natCast, String.data_append, natRepr_data, d1, d2,
    List.append_assoc]

theorem parse_query_encode_detailNat (k a : Nat) :
    parse_query (encode (QueryCommand.Detail (Int.ofNat k) (Int.ofNat a))) =
      some (QueryCommand.Detail (Int.ofNat k) (Int.ofNat a)) := by
  unfold parse_query
  rw [encode_detail_data,
    splitSlash_shape5 _ _ _ (slash_not_mem_natDigits k) (by decide)
      (slash_not_mem_natDigits a)]
  have hne : "detail".data ≠ "offset".data := by decide
  simp [parseDecimalSeg_natDigits, hne]

theorem encode_progress_data (k p : Nat) (a e : String) :
    (encode (QueryCommand.Progress (Int.ofNat k) a e (Int.ofNat p))).data =
      '/' :: (natDigits k ++ '/' ::
        ("progress".data ++ '/' :: (a.data ++ '/' :: (e.data ++ '/' :: (natDigits p ++ ['/']))))) := by
  have d1 : ("/" : String).data = ['/'] := rfl
  have d2 : ("/progress/" : String).data = '/' :: ("progress".data ++ ['/']) := rfl
  simp [encode, intRepr_ofNat, intRepr_natCast, String.data_append, natRepr_data, d1, d2,
    List.append_assoc]

theorem parse_query_encode_progressNat (k p : Nat) (a e : String)
    (ha : '/' ∉ a.data) (he : '/' ∉ e.data) :
    parse_query (encode (QueryCommand.Progress (Int.ofNat k) a e (Int.ofNat p))) =
      some (QueryCommand.Progress (Int.ofNat k) a e (Int.ofNat p)) := by
  unfold parse_query
  rw [encode_progress_data,
    splitSlash_shape7 _ _ _ _ _ (slash_not_mem_natDigits k) (by decide) ha he
      (slash_not_mem_natDigits p)]
  simp [parseDecimalSeg_natDigits, String_mk_data]

/-! Running pipelines: small-step lemmas and concrete fixtures. -/

theorem run_pure (env : Env) (r : Except Error Unit) :
    run env (Program.pure r) = ([], r) := rfl

theorem run_bind_error (env : Env) (e : Eff) (k : Res e → Program) (err : Error)
    (h : env e = Except.error err) :
    run env (Program.bind e k) = ([e], Except.error err) := by
  simp only [run, h]

theorem run_bind_ok (env : Env) (e : Eff) (k : Res e → Program) (r : Res e)
    (h : env e = Except.ok r) :
    run env (Program.bind e k) =
      (e :: (run env (k r)).1, (run env (k r)).2) := by
  simp only [run, h]

theorem run_bind_pure_trace (env : Env) (e : Eff) (g : Res e → Except Error Unit) :
    (run env (Program.bind e (fun r => Program.pure (g r)))).1 = [e] := by
  cases h : env e with
  | error err => rw [run_bind_error _ _ _ _ h]
  | ok r => simp only [run_bind_ok _ _ _ _ h, run_pure]

/-- Effect classifier: is this collaborator call a send of a new chat
message? -/
def Eff.isSendMessage : Eff → Bool
  | Eff.sendMessage _ _ _ _ => true
  | _ => false

/-- Effect classifier: is this collaborator call a callback
acknowledgment? -/
def Eff.isAnswerQuery : Eff → Bool
  | Eff.answerQuery _ _ _ => true
  | _ => false

/-- Database with no registered users, for concrete witnesses. -/
def emptyDb : Database :=
  { get_kitsu_id := fun _ => none, get_token := fun _ _ => none }

/-- Database registering exactly sender 5 with kitsu id 7 and token
"tok", for concrete witnesses. -/
def oneUserDb : Database :=
  { get_kitsu_id := fun u => if u = 5 then some 7 else none,
    get_token := fun u k => if u = 5 ∧ k = 7 then some "tok" else none }

/-- Message value with every optional field absent. -/
def noMessage : Message :=
  { message_id := none, chat := none, from_ := none, text := none }

/-- Environment in which every collaborator call succeeds with a fixed
benign result. -/
def okEnv : Env := fun e =>
  match e with
  | Eff.fetchAnime _ _ => Except.ok (none, none, [], [])
  | Eff.getAnime _ _ => Except.ok ("", "")
  | Eff.updateAnimeEntry _ _ _ _ => Except.ok ()
  | Eff.dbFetch => Except.ok []
  | Eff.sendMessage _ _ _ _ => Except.ok noMessage
  | Eff.editInlineKeyboard _ _ _ _ _ => Except.ok noMessage
  | Eff.answerQuery _ _ _ => Except.ok ()

/-- Environment in which every collaborator call fails. -/
def failEnv : Env := fun _ => Except.error (Error.collaborator "network")

/-- Environment in which exactly the message edits fail. -/
def editFailEnv : Env := fun e =>
  match e with
  | Eff.editInlineKeyboard _ _ _ _ _ => Except.error (Error.collaborator "network")
  | Eff.fetchAnime _ _ => Except.ok (none, none, [], [])
  | Eff.getAnime _ _ => Except.ok ("", "")
  | Eff.updateAnimeEntry _ _ _ _ => Except.ok ()
  | Eff.dbFetch => Except.ok []
  | Eff.sendMessage _ _ _ _ => Except.ok noMessage
  | Eff.answerQuery _ _ _ => Except.ok ()

/-! Claim theorems. -/

/-- Claim C1: a callback event whose originating message reference is
absent makes handle_query immediately yield the stale-interaction error
"Outdated Message." as a pure error pipeline: the payload is never
parsed (the right-hand side does not depend on the data field), and
running the returned pipeline performs no collaborator call whatsoever
— in particular no user-visible message is sent. -/
theorem handle_query_stale_interaction (db : Database) (q : CallbackQuery)
    (h : q.message = none) :
    Handler.handle_query db q =
      RustResult.value (Program.pure (Except.error (Error.telegram "Outdated Message."))) ∧
    ∀ env : Env,
      run env (Program.pure (Except.error (Error.telegram "Outdated Message."))) =
        ([], Except.error (Error.telegram "Outdated Message.")) := by
  constructor
  · simp only [Handler.handle_query, h]
  · intro env
    rfl

theorem handle_query_stale_interaction_witness :
    Handler.handle_query emptyDb
        { id := "q1", from_ := { id := 5 }, message := none, data := some "/7/offset/3/" } =
      RustResult.value (Program.pure (Except.error (Error.telegram "Outdated Message."))) ∧
    ∀ env : Env,
      run env (Program.pure (Except.error (Error.telegram "Outdated Message."))) =
        ([], Except.error (Error.telegram "Outdated Message.")) :=
  handle_query_stale_interaction emptyDb
    { id := "q1", from_ := { id := 5 }, message := none, data := some "/7/offset/3/" } rfl

/-- Claim C2 is refuted by the code: handle_message extracts the chat
with Option::unwrap, so an incoming message whose chat field is absent
makes the dispatcher panic instead of failing fast with an error
value. -/
theorem handle_message_absent_chat_panics :
    Handler.handle_message emptyDb
        { message_id := some 1, chat := none, from_ := some { id := 5 },
          text := some "list" } =
      RustResult.panicked := rfl

/-- Claim C2 amended: only the originating-message reference of a
callback event is handled as a distinct error class before parsing
("Outdated Message."), and absent text is defaulted to empty and then
parsed (routing to unknown), so no parse failure escapes; but an absent
chat or sender on a chat message, and an absent message_id or chat on
the callback's originating message, make the dispatcher panic
(Option::unwrap) rather than fail with an error value. -/
theorem dispatcher_absent_field_behaviour (db : Database) (m : Message)
    (q : CallbackQuery) :
    (m.chat = none → Handler.handle_message db m = RustResult.panicked) ∧
    (∀ c, m.chat = some c → m.from_ = none →
      Handler.handle_message db m = RustResult.panicked) ∧
    (∀ c u, m.chat = some c → m.from_ = some u → m.text = none →
      Handler.handle_message db m = RustResult.value (Handler.unknown c.id)) ∧
    (q.message = none →
      Handler.handle_query db q =
        RustResult.value (Program.pure (Except.error (Error.telegram "Outdated Message.")))) ∧
    (∀ msg, q.message = some msg → msg.message_id = none →
      Handler.handle_query db q = RustResult.panicked) ∧
    (∀ msg mid, q.message = some msg → msg.message_id = some mid → msg.chat = none →
      Handler.handle_query db q = RustResult.panicked) := by
  refine ⟨?_, ?_, ?_, ?_, ?_, ?_⟩
  · intro h
    simp only [Handler.handle_message, h]
  · intro c hc hf
    simp only [Handler.handle_message, hc, hf]
  · intro c u hc hf ht
    simp only [Handler.handle_message, hc, hf, ht]
    rfl
  · intro h
    simp only [Handler.handle_query, h]
  · intro msg hm hmid
    simp only [Handler.handle_query, hm, hmid]
  · intro msg mid hm hmid hchat
    simp only [Handler.handle_query, hm, hmid, hchat]

theorem dispatcher_absent_field_behaviour_witness :
    Handler.handle_message emptyDb noMessage = RustResult.panicked ∧
    Handler.handle_message emptyDb ⟨some 1, some ⟨2⟩, none, some "list"⟩ =
      RustResult.panicked ∧
    Handler.handle_message emptyDb ⟨some 1, some ⟨2⟩, some ⟨5⟩, none⟩ =
      RustResult.value (Handler.unknown 2) ∧
    Handler.handle_query emptyDb ⟨"q1", ⟨5⟩, none, none⟩ =
      RustResult.value (Program.pure (Except.error (Error.telegram "Outdated Message."))) ∧
    Handler.handle_query emptyDb ⟨"q1", ⟨5⟩, some ⟨none, some ⟨2⟩, none, none⟩, none⟩ =
      RustResult.panicked ∧
    Handler.handle_query emptyDb ⟨"q1", ⟨5⟩, some ⟨some 1, none, none, none⟩, none⟩ =
      RustResult.panicked :=
  ⟨(dispatcher_absent_field_behaviour emptyDb noMessage ⟨"q1", ⟨5⟩, none, none⟩).1 rfl,
   (dispatcher_absent_field_behaviour emptyDb ⟨some 1, some ⟨2⟩, none, some "list"⟩
      ⟨"q1", ⟨5⟩, none, none⟩).2.1 ⟨2⟩ rfl rfl,
   (dispatcher_absent_field_behaviour emptyDb ⟨some 1, some ⟨2⟩, some ⟨5⟩, none⟩
      ⟨"q1", ⟨5⟩, none, none⟩).2.2.1 ⟨2⟩ ⟨5⟩ rfl rfl rfl,
   (dispatcher_absent_field_behaviour emptyDb noMessage
      ⟨"q1", ⟨5⟩, none, none⟩).2.2.2.1 rfl,
   (dispatcher_absent_field_behaviour emptyDb noMessage
      ⟨"q1", ⟨5⟩, some ⟨none, some ⟨2⟩, none, none⟩, none⟩).2.2.2.2.1
     ⟨none, some ⟨2⟩, none, none⟩ rfl rfl,
   (dispatcher_absent_field_behaviour emptyDb noMessage
      ⟨"q1", ⟨5⟩, some ⟨some 1, none, none, none⟩, none⟩).2.2.2.2.2
     ⟨some 1, none, none, none⟩ 1 rfl rfl rfl⟩

/-- Claim C3: in every chained pipeline (Offset, Detail, Progress with
a token, List for a registered sender) a remote-call failure aborts the
remaining chain and surfaces as the single error value of the whole
pipeline.  When the first remote call fails, the trace is exactly that
one call: no edit, no acknowledgment, no send happens afterwards.  When
Offset's edit fails after a successful fetch, the callback is still
never acknowledged. -/
theorem pipeline_abort_on_failure (env : Env) (db : Database)
    (msg_id chat_id user_id kitsu_id off anime_id prog : Int)
    (aid eid tok qid : String) (err : Error) :
    (env (Eff.fetchAnime kitsu_id off) = Except.error err →
      run env (Handler.offset msg_id chat_id kitsu_id off qid) =
        ([Eff.fetchAnime kitsu_id off], Except.error err)) ∧
    (env (Eff.getAnime kitsu_id anime_id) = Except.error err →
      run env (Handler.detail msg_id chat_id kitsu_id anime_id qid) =
        ([Eff.getAnime kitsu_id anime_id], Except.error err)) ∧
    (db.get_token user_id kitsu_id = some tok →
      env (Eff.updateAnimeEntry tok eid prog aid) = Except.error err →
      run env (Handler.progress db msg_id chat_id user_id kitsu_id aid prog eid qid) =
        ([Eff.updateAnimeEntry tok eid prog aid], Except.error err)) ∧
    (db.get_kitsu_id user_id = some kitsu_id →
      env (Eff.fetchAnime kitsu_id 0) = Except.error err →
      run env (Handler.list db user_id chat_id) =
        ([Eff.fetchAnime kitsu_id 0], Except.error err)) ∧
    (∀ r, env (Eff.fetchAnime kitsu_id off) = Except.ok r →
      env (Handler.offsetEdit msg_id chat_id kitsu_id r) = Except.error err →
      run env (Handler.offset msg_id chat_id kitsu_id off qid) =
        ([Eff.fetchAnime kitsu_id off, Handler.offsetEdit msg_id chat_id kitsu_id r],
          Except.error err)) := by
  refine ⟨?_, ?_, ?_, ?_, ?_⟩
  · intro h
    unfold Handler.offset
    rw [run_bind_error _ _ _ _ h]
  · intro h
    unfold Handler.detail
    rw [run_bind_error _ _ _ _ h]
  · intro hdb h
    unfold Handler.progress
    rw [hdb]
    rw [run_bind_error _ _ _ _ h]
  · intro hdb h
    unfold Handler.list
    rw [hdb]
    rw [run_bind_error _ _ _ _ h]
  · intro r hf he
    unfold Handler.offset
    simp only [run_bind_ok _ _ _ _ hf]
    rw [run_bind_error _ _ _ _ he]

theorem pipeline_abort_on_failure_witness :
    run failEnv (Handler.offset 1 2 7 3 "q") =
      ([Eff.fetchAnime 7 3], Except.error (Error.collaborator "network")) ∧
    run failEnv (Handler.detail 1 2 7 4 "q") =
      ([Eff.getAnime 7 4], Except.error (Error.collaborator "network")) ∧
    run failEnv (Handler.progress oneUserDb 1 2 5 7 "abc" 6 "xyz" "q") =
      ([Eff.updateAnimeEntry "tok" "xyz" 6 "abc"], Except.error (Error.collaborator "network")) ∧
    run failEnv (Handler.list oneUserDb 5 2) =
      ([Eff.fetchAnime 7 0], Except.error (Error.collaborator "network")) ∧
    run editFailEnv (Handler.offset 1 2 7 3 "q") =
      ([Eff.fetchAnime 7 3, Handler.offsetEdit 1 2 7 (none, none, [], [])],
        Except.error (Error.collaborator "network")) :=
  ⟨(pipeline_abort_on_failure failEnv emptyDb 1 2 5 7 3 4 6 "abc" "xyz" "tok" "q"
      (Error.collaborator "network")).1 rfl,
   (pipeline_abort_on_failure failEnv emptyDb 1 2 5 7 3 4 6 "abc" "xyz" "tok" "q"
      (Error.collaborator "network")).2.1 rfl,
   (pipeline_abort_on_failure failEnv oneUserDb 1 2 5 7 3 4 6 "abc" "xyz" "tok" "q"
      (Error.collaborator "network")).2.2.1 (by decide) rfl,
   (pipeline_abort_on_failure failEnv oneUserDb 1 2 5 7 3 4 6 "abc" "xyz" "tok" "q"
      (Error.collaborator "network")).2.2.2.1 (by decide) rfl,
   (pipeline_abort_on_failure editFailEnv emptyDb 1 2 5 7 3 4 6 "abc" "xyz" "tok" "q"
      (Error.collaborator "network")).2.2.2.2 (none, none, [], []) rfl rfl⟩

/-- Claim C4: a "list" text command from a sender whose remote-subject
id is absent from the token store routes to Handler.list, whose trace
under every environment is exactly one send of "Non-registered user: "
followed by the sender id, with no markup and no keyboard; in
particular no remote fetch is ever attempted. -/
theorem list_unregistered_notice (db : Database) (env : Env) (m : Message)
    (c : Chat) (u : User)
    (hc : m.chat = some c) (hu : m.from_ = some u) (ht : m.text = some "list")
    (hdb : db.get_kitsu_id u.id = none) :
    Handler.handle_message db m = RustResult.value (Handler.list db u.id c.id) ∧
    (run env (Handler.list db u.id c.id)).1 =
      [Eff.sendMessage c.id ("Non-registered user: " ++ intRepr u.id) none none] := by
  constructor
  · simp only [Handler.handle_message, hc, hu, ht]
    rfl
  · unfold Handler.list
    rw [hdb]
    exact run_bind_pure_trace env _ _

theorem list_unregistered_notice_witness :
    Handler.handle_message emptyDb ⟨some 1, some ⟨2⟩, some ⟨9⟩, some "list"⟩ =
      RustResult.value (Handler.list emptyDb 9 2) ∧
    (run failEnv (Handler.list emptyDb 9 2)).1 =
      [Eff.sendMessage 2 ("Non-registered user: " ++ intRepr 9) none none] :=
  list_unregistered_notice emptyDb failEnv ⟨some 1, some ⟨2⟩, some ⟨9⟩, some "list"⟩
    ⟨2⟩ ⟨9⟩ rfl rfl rfl rfl

/-- Claim C5: a Progress callback from a sender without a stored token
becomes the pipeline that answers the callback with the alert text
"Non-registered user" and the alert flag set; under every environment
its trace is exactly that acknowledgment, so no message edit and no
remote progress update ever happens. -/
theorem progress_unregistered_alert (db : Database) (env : Env)
    (msg_id chat_id user_id kitsu_id prog : Int) (aid eid qid : String)
    (h : db.get_token user_id kitsu_id = none) :
    Handler.progress db msg_id chat_id user_id kitsu_id aid prog eid qid =
      Program.bind (Eff.answerQuery qid (some "Non-registered user") (some true))
        (fun _ => Program.pure (Except.ok ())) ∧
    (run env (Handler.progress db msg_id chat_id user_id kitsu_id aid prog eid qid)).1 =
      [Eff.answerQuery qid (some "Non-registered user") (some true)] := by
  constructor
  · unfold Handler.progress
    rw [h]
  · unfold Handler.progress
    rw [h]
    exact run_bind_pure_trace env _ _

theorem progress_unregistered_alert_witness :
    Handler.progress emptyDb 1 2 5 7 "abc" 5 "xyz" "q" =
      Program.bind (Eff.answerQuery "q" (some "Non-registered user") (some true))
        (fun _ => Program.pure (Except.ok ())) ∧
    (run okEnv (Handler.progress emptyDb 1 2 5 7 "abc" 5 "xyz" "q")).1 =
      [Eff.answerQuery "q" (some "Non-registered user") (some true)] :=
  progress_unregistered_alert emptyDb okEnv 1 2 5 7 5 "abc" "xyz" "q" rfl

/-- Claim C6: Handler.offset first fetches the requested page, then
edits the existing message in place (feeding the fetched page through
the same parse_anime_list formatting as Handler.list), then
acknowledges the callback with no alert text and no alert flag, in
exactly that order; and under every environment its trace never
contains a send of a new message. -/
theorem offset_edits_then_acknowledges (env : Env)
    (msg_id chat_id kitsu_id off : Int) (qid : String)
    (r : Option Int × Option Int × List Entry × List Anime) (m1 : Message)
    (hf : env (Eff.fetchAnime kitsu_id off) = Except.ok r)
    (he : env (Handler.offsetEdit msg_id chat_id kitsu_id r) = Except.ok m1)
    (ha : env (Eff.answerQuery qid none none) = Except.ok ()) :
    run env (Handler.offset msg_id chat_id kitsu_id off qid) =
      ([Eff.fetchAnime kitsu_id off, Handler.offsetEdit msg_id chat_id kitsu_id r,
        Eff.answerQuery qid none none], Except.ok ()) ∧
    ∀ env' : Env, ∀ x ∈ (run env' (Handler.offset msg_id chat_id kitsu_id off qid)).1,
      Eff.isSendMessage x = false := by
  constructor
  · unfold Handler.offset
    simp only [run_bind_ok _ _ _ _ hf, run_bind_ok _ _ _ _ he, run_bind_ok _ _ _ _ ha,
      run_pure]
  · intro env' x hx
    unfold Handler.offset at hx
    cases h1 : env' (Eff.fetchAnime kitsu_id off) with
    | error err =>
      rw [run_bind_error _ _ _ _ h1] at hx
      simp only [List.mem_singleton] at hx
      subst hx
      rfl
    | ok r' =>
      simp only [run_bind_ok _ _ _ _ h1, List.mem_cons] at hx
      rcases hx with hx | hx
      · subst hx
        rfl
      · cases h2 : env' (Handler.offsetEdit msg_id chat_id kitsu_id r') with
        | error err =>
          rw [run_bind_error _ _ _ _ h2] at hx
          simp only [List.mem_singleton] at hx
          subst hx
          rfl
        | ok m2 =>
          simp only [run_bind_ok _ _ _ _ h2, List.mem_cons] at hx
          rcases hx with hx | hx
          · subst hx
            rfl
          · cases h3 : env' (Eff.answerQuery qid none none) with
            | error err =>
              rw [run_bind_error _ _ _ _ h3] at hx
              simp only [List.mem_singleton] at hx
              subst hx
              rfl
            | ok u =>
              simp only [run_bind_ok _ _ _ _ h3, run_pure, List.mem_cons,
                List.not_mem_nil, or_false] at hx
              subst hx
              rfl

theorem offset_edits_then_acknowledges_witness :
    run okEnv (Handler.offset 1 2 7 3 "q") =
      ([Eff.fetchAnime 7 3, Handler.offsetEdit 1 2 7 (none, none, [], []),
        Eff.answerQuery "q" none none], Except.ok ()) ∧
    ∀ env' : Env, ∀ x ∈ (run env' (Handler.offset 1 2 7 3 "q")).1,
      Eff.isSendMessage x = false :=
  offset_edits_then_acknowledges okEnv 1 2 7 3 "q" (none, none, [], []) noMessage
    rfl rfl rfl

/-- Claim C9: for every valid QueryCommand — non-negative numeric
fields and delimiter-free string identifiers — decoding the encoded
payload string yields the original command. -/
theorem decode_encode_id (c : QueryCommand) (h : ValidCommand c) :
    parse_query (encode c) = some c := by
  cases c with
  | Offset k o =>
    obtain ⟨hk, ho⟩ := h
    rw [← Int.toNat_of_nonneg hk, ← Int.toNat_of_nonneg ho]
    exact parse_query_encode_offsetNat k.toNat o.toNat
  | Detail k a =>
    obtain ⟨hk, ha⟩ := h
    rw [← Int.toNat_of_nonneg hk, ← Int.toNat_of_nonneg ha]
    exact parse_query_encode_detailNat k.toNat a.toNat
  | Progress k a e p =>
    obtain ⟨hk, hp, ha, he⟩ := h
    rw [← Int.toNat_of_nonneg hk, ← Int.toNat_of_nonneg hp]
    exact parse_query_encode_progressNat k.toNat p.toNat a e ha he

theorem decode_encode_id_witness :
    parse_query (encode (QueryCommand.Offset 7 3)) = some (QueryCommand.Offset 7 3) ∧
    parse_query (encode (QueryCommand.Detail 42 108)) = some (QueryCommand.Detail 42 108) ∧
    parse_query (encode (QueryCommand.Progress 7 "abc" "xyz" 5)) =
      some (QueryCommand.Progress 7 "abc" "xyz" 5) :=
  ⟨decode_encode_id (QueryCommand.Offset 7 3) (by constructor <;> decide),
   decode_encode_id (QueryCommand.Detail 42 108) (by constructor <;> decide),
   decode_encode_id (QueryCommand.Progress 7 "abc" "xyz" 5)
     (by refine ⟨by decide, by decide, by decide, by decide⟩)⟩

theorem String_data_inj (s t : String) (h : s.data = t.data) : s = t := by
  have h2 := congrArg String.mk h
  rwa [String_mk_data, String_mk_data] at h2

theorem natDigits_lt_ten (n : Nat) (h : n < 10) : natDigits n = [digitChar n] := by
  rw [natDigits]
  rw [dif_pos h]

theorem offset_zero_payload (k : Int) :
    "/" ++ intRepr k ++ "/offset/0/" = encode (QueryCommand.Offset k 0) := by
  apply String_data_inj
  have d1 : ("/offset/0/" : String).data = '/' :: ("offset".data ++ ['/', '0', '/']) := rfl
  have d2 : ("/offset/" : String).data = '/' :: ("offset".data ++ ['/']) := rfl
  have d3 : (intRepr 0).data = ['0'] := by
    have h1 : intRepr 0 = natRepr 0 := by
      unfold intRepr
      rw [if_neg (by omega)]
      rfl
    rw [h1, natRepr_data, natDigits_lt_ten 0 (by omega)]
    rfl
  have d4 : ("/" : String).data = ['/'] := rfl
  simp [encode, String.data_append, d1, d2, d3, d4, List.append_assoc]

theorem detail_payload_encode (k : Int) (n : Nat) :
    "/" ++ intRepr k ++ "/detail/" ++ natRepr n ++ "/" =
      encode (QueryCommand.Detail k (Int.ofNat n)) := by
  simp [encode, intRepr_ofNat, intRepr_natCast]

/-- Claim C7: a Progress callback from a sender with a stored token
submits the update and, on success, edits the message to the
confirmation text "Successful update to episode " followed by the
submitted progress value, with the two back-navigation buttons whose
payloads are the detail form "/{kitsu_id}/detail/{anime_id}/" and the
offset-zero form "/{kitsu_id}/offset/0/"; those payloads agree with the
authoritative wire grammar: the offset payload decodes to Offset with
offset 0, and the detail payload decodes to the Detail command whenever
the entry identifier is a decimal number as the grammar requires. -/
theorem progress_success_confirmation (db : Database) (env : Env)
    (msg_id chat_id user_id kitsu_id prog : Int) (aid eid tok qid : String)
    (m1 : Message)
    (hdb : db.get_token user_id kitsu_id = some tok)
    (hu : env (Eff.updateAnimeEntry tok eid prog aid) = Except.ok ())
    (he : env (Eff.editInlineKeyboard msg_id chat_id
        ("Successful update to episode " ++ intRepr prog) (some ParseMode.HTML)
        (some (Handler.progressButtons kitsu_id aid))) = Except.ok m1) :
    run env (Handler.progress db msg_id chat_id user_id kitsu_id aid prog eid qid) =
      ([Eff.updateAnimeEntry tok eid prog aid,
        Eff.editInlineKeyboard msg_id chat_id
          ("Successful update to episode " ++ intRepr prog) (some ParseMode.HTML)
          (some (Handler.progressButtons kitsu_id aid))], Except.ok ()) ∧
    Handler.progressButtons kitsu_id aid =
      [[InlineKeyboardButton.with_callback_data "back to anime"
          ("/" ++ intRepr kitsu_id ++ "/detail/" ++ aid ++ "/")],
       [InlineKeyboardButton.with_callback_data "back to list"
          ("/" ++ intRepr kitsu_id ++ "/offset/0/")]] ∧
    (0 ≤ kitsu_id →
      parse_query ("/" ++ intRepr kitsu_id ++ "/offset/0/") =
        some (QueryCommand.Offset kitsu_id 0)) ∧
    (∀ n : Nat, 0 ≤ kitsu_id → aid = natRepr n →
      parse_query ("/" ++ intRepr kitsu_id ++ "/detail/" ++ aid ++ "/") =
        some (QueryCommand.Detail kitsu_id (Int.ofNat n))) := by
  refine ⟨?_, rfl, ?_, ?_⟩
  · unfold Handler.progress
    rw [hdb]
    simp only [run_bind_ok _ _ _ _ hu, run_bind_ok _ _ _ _ he, run_pure]
  · intro hk
    rw [offset_zero_payload]
    rw [← Int.toNat_of_nonneg hk]
    exact parse_query_encode_offsetNat kitsu_id.toNat 0
  · intro n hk haid
    subst haid
    rw [detail_payload_encode]
    rw [← Int.toNat_of_nonneg hk]
    exact parse_query_encode_detailNat kitsu_id.toNat n

theorem progress_success_confirmation_witness :
    run okEnv (Handler.progress oneUserDb 1 2 5 7 "abc" 4 "xyz" "q") =
      ([Eff.updateAnimeEntry "tok" "xyz" 4 "abc",
        Eff.editInlineKeyboard 1 2 ("Successful update to episode " ++ intRepr 4)
          (some ParseMode.HTML) (some (Handler.progressButtons 7 "abc"))],
        Except.ok ()) ∧
    parse_query ("/" ++ intRepr 7 ++ "/offset/0/") = some (QueryCommand.Offset 7 0) ∧
    parse_query ("/" ++ intRepr 7 ++ "/detail/" ++ natRepr 12 ++ "/") =
      some (QueryCommand.Detail 7 (Int.ofNat 12)) :=
  ⟨(progress_success_confirmation oneUserDb okEnv 1 2 5 7 4 "abc" "xyz" "tok" "q"
      noMessage (by decide) rfl rfl).1,
   (progress_success_confirmation oneUserDb okEnv 1 2 5 7 4 "abc" "xyz" "tok" "q"
      noMessage (by decide) rfl rfl).2.2.1 (by decide),
   (progress_success_confirmation oneUserDb okEnv 1 2 5 7 4 (natRepr 12) "xyz" "tok" "q"
      noMessage (by decide) rfl rfl).2.2.2 12 (by decide) rfl⟩

/-- Claim C8 is refuted by the code: the Detail pipeline completes
successfully without ever acknowledging the callback — the source's
detail method accepts the callback id but never calls answer_query (and
the Progress success path likewise never answers).  Concretely, running
Handler.detail under an all-successful environment succeeds with a
trace containing no answer_query call, so acknowledgment is not the
final step of every callback handler. -/
theorem detail_completes_without_acknowledging :
    (run okEnv (Handler.detail 1 2 3 4 "q")).2 = Except.ok () ∧
    List.all (run okEnv (Handler.detail 1 2 3 4 "q")).1
      (fun x => !(Eff.isAnswerQuery x)) = true :=
  ⟨rfl, rfl⟩

/-- Claim C8 amended: each callback pipeline is a strictly ordered
chain fetch, format, act; Offset alone then acknowledges the callback
as its final step, while Detail and the Progress success path end at
the in-place edit and never answer the callback under any
environment. -/
theorem callback_pipelines_ordered (env : Env) (db : Database)
    (msg_id chat_id user_id kitsu_id off anime_id prog : Int)
    (aid eid tok qid : String)
    (r : Option Int × Option Int × List Entry × List Anime)
    (pair : Entry × Anime) (m1 m2 m3 : Message)
    (hf : env (Eff.fetchAnime kitsu_id off) = Except.ok r)
    (he : env (Handler.offsetEdit msg_id chat_id kitsu_id r) = Except.ok m1)
    (ha : env (Eff.answerQuery qid none none) = Except.ok ())
    (hg : env (Eff.getAnime kitsu_id anime_id) = Except.ok pair)
    (hde : env (Handler.detailEdit msg_id chat_id kitsu_id pair) = Except.ok m2)
    (hdb : db.get_token user_id kitsu_id = some tok)
    (hu : env (Eff.updateAnimeEntry tok eid prog aid) = Except.ok ())
    (hpe : env (Eff.editInlineKeyboard msg_id chat_id
        ("Successful update to episode " ++ intRepr prog) (some ParseMode.HTML)
        (some (Handler.progressButtons kitsu_id aid))) = Except.ok m3) :
    run env (Handler.offset msg_id chat_id kitsu_id off qid) =
      ([Eff.fetchAnime kitsu_id off, Handler.offsetEdit msg_id chat_id kitsu_id r,
        Eff.answerQuery qid none none], Except.ok ()) ∧
    run env (Handler.detail msg_id chat_id kitsu_id anime_id qid) =
      ([Eff.getAnime kitsu_id anime_id, Handler.detailEdit msg_id chat_id kitsu_id pair],
        Except.ok ()) ∧
    run env (Handler.progress db msg_id chat_id user_id kitsu_id aid prog eid qid) =
      ([Eff.updateAnimeEntry tok eid prog aid,
        Eff.editInlineKeyboard msg_id chat_id
          ("Successful update to episode " ++ intRepr prog) (some ParseMode.HTML)
          (some (Handler.progressButtons kitsu_id aid))], Except.ok ()) ∧
    (∀ env' : Env,
      ∀ x ∈ (run env' (Handler.detail msg_id chat_id kitsu_id anime_id qid)).1,
      Eff.isAnswerQuery x = false) ∧
    (∀ env' : Env,
      ∀ x ∈ (run env' (Handler.progress db msg_id chat_id user_id kitsu_id aid prog eid qid)).1,
      Eff.isAnswerQuery x = false) := by
  refine ⟨?_, ?_, ?_, ?_, ?_⟩
  · unfold Handler.offset
    simp only [run_bind_ok _ _ _ _ hf, run_bind_ok _ _ _ _ he, run_bind_ok _ _ _ _ ha,
      run_pure]
  · unfold Handler.detail
    simp only [run_bind_ok _ _ _ _ hg, run_bind_ok _ _ _ _ hde, run_pure]
  · unfold Handler.progress
    rw [hdb]
    simp only [run_bind_ok _ _ _ _ hu, run_bind_ok _ _ _ _ hpe, run_pure]
  · intro env' x hx
    unfold Handler.detail at hx
    cases h1 : env' (Eff.getAnime kitsu_id anime_id) with
    | error err =>
      rw [run_bind_error _ _ _ _ h1] at hx
      simp only [List.mem_singleton] at hx
      subst hx
      rfl
    | ok pr =>
      simp only [run_bind_ok _ _ _ _ h1, List.mem_cons] at hx
      rcases hx with hx | hx
      · subst hx
        rfl
      · cases h2 : env' (Handler.detailEdit msg_id chat_id kitsu_id pr) with
        | error err =>
          rw [run_bind_error _ _ _ _ h2] at hx
          simp only [List.mem_singleton] at hx
          subst hx
          rfl
        | ok mm =>
          simp only [run_bind_ok _ _ _ _ h2, run_pure, List.mem_cons,
            List.not_mem_nil, or_false] at hx
          subst hx
          rfl
  · intro env' x hx
    unfold Handler.progress at hx
    rw [hdb] at hx
    cases h1 : env' (Eff.updateAnimeEntry tok eid prog aid) with
    | error err =>
      rw [run_bind_error _ _ _ _ h1] at hx
      simp only [List.mem_singleton] at hx
      subst hx
      rfl
    | ok u =>
      simp only [run_bind_ok _ _ _ _ h1, List.mem_cons] at hx
      rcases hx with hx | hx
      · subst hx
        rfl
      · cases h2 : env' (Eff.editInlineKeyboard msg_id chat_id
            ("Successful update to episode " ++ intRepr prog) (some ParseMode.HTML)
            (some (Handler.progressButtons kitsu_id aid))) with
        | error err =>
          rw [run_bind_error _ _ _ _ h2] at hx
          simp only [List.mem_singleton] at hx
          subst hx
          rfl
        | ok mm =>
          simp only [run_bind_ok _ _ _ _ h2, run_pure, List.mem_cons,
            List.not_mem_nil, or_false] at hx
          subst hx
          rfl

theorem callback_pipelines_ordered_witness :
    run okEnv (Handler.offset 1 2 7 3 "q") =
      ([Eff.fetchAnime 7 3, Handler.offsetEdit 1 2 7 (none, none, [], []),
        Eff.answerQuery "q" none none], Except.ok ()) ∧
    run okEnv (Handler.detail 1 2 7 4 "q") =
      ([Eff.getAnime 7 4, Handler.detailEdit 1 2 7 ("", "")], Except.ok ()) ∧
    run okEnv (Handler.progress oneUserDb 1 2 5 7 "abc" 4 "xyz" "q") =
      ([Eff.updateAnimeEntry "tok" "xyz" 4 "abc",
        Eff.editInlineKeyboard 1 2 ("Successful update to episode " ++ intRepr 4)
          (some ParseMode.HTML) (some (Handler.progressButtons 7 "abc"))],
        Except.ok ()) ∧
    (∀ env' : Env, ∀ x ∈ (run env' (Handler.detail 1 2 7 4 "q")).1,
      Eff.isAnswerQuery x = false) ∧
    (∀ env' : Env, ∀ x ∈ (run env' (Handler.progress oneUserDb 1 2 5 7 "abc" 4 "xyz" "q")).1,
      Eff.isAnswerQuery x = false) :=
  callback_pipelines_ordered okEnv oneUserDb 1 2 5 7 3 4 4 "abc" "xyz" "tok" "q"
    (none, none, [], []) ("", "") noMessage noMessage noMessage
    rfl rfl rfl rfl rfl (by decide) rfl rfl

/-- Claim C10: a callback event that has an originating message (with
message id and chat present) but whose payload fails to parse routes to
Handler.unknown, which sends the new chat message "Unknown command."
with no markup and no keyboard; under every environment its trace is
exactly that send — in particular the existing message is never edited
and the callback is never answered. -/
theorem unknown_payload_routes_to_unknown (db : Database) (env : Env)
    (q : CallbackQuery) (msg : Message) (mid : Int) (c : Chat)
    (hm : q.message = some msg) (hmid : msg.message_id = some mid)
    (hchat : msg.chat = some c)
    (hp : parse_query (q.data.getD "") = none) :
    Handler.handle_query db q = RustResult.value (Handler.unknown c.id) ∧
    (run env (Handler.unknown c.id)).1 =
      [Eff.sendMessage c.id "Unknown command." none none] := by
  constructor
  · simp only [Handler.handle_query, hm, hmid, hchat, hp]
  · unfold Handler.unknown
    exact run_bind_pure_trace env _ _

theorem unknown_payload_routes_to_unknown_witness :
    Handler.handle_query emptyDb
        ⟨"q1", ⟨5⟩, some ⟨some 1, some ⟨2⟩, none, none⟩, some "garbage"⟩ =
      RustResult.value (Handler.unknown 2) ∧
    (run failEnv (Handler.unknown 2)).1 =
      [Eff.sendMessage 2 "Unknown command." none none] :=
  unknown_payload_routes_to_unknown emptyDb failEnv
    ⟨"q1", ⟨5⟩, some ⟨some 1, some ⟨2⟩, none, none⟩, some "garbage"⟩
    ⟨some 1, some ⟨2⟩, none, none⟩ 1 ⟨2⟩ rfl rfl rfl (by decide)
